import Mathlib

/-!
Verification development for the bitoro.js position valuation and
trade-simulation engine (`src/computations.ts`).

Modelling conventions:
* `BigNumber` (arbitrary-precision decimal) values are modelled as `ℚ`.
  Divisions are exact rationals; division by zero yields `0` in `ℚ`, but every
  division reached by the theorems below is guarded by positivity checks of the
  source (prices are validated to be strictly positive before use).
* Thrown JS exceptions are modelled with `Except Err`.  `InvalidArgumentError`,
  `InsufficientLiquidityError` and `BugError` become dedicated constructors;
  the plain `Error('bankrupt')` and `Error('insufficient pnl')` throws become
  `Err.jsError` with the source's message string.
* The implicit global clock read `Math.ceil(Date.now() / 1000)` is passed
  explicitly as a parameter `now : ℕ` to each function whose source body reads
  the clock (directly or through `computePositionPnlUsd`).
* `decodeSubAccountId` is external to the repository and specified as a pure
  decode; sub-account ids are therefore represented directly by their decoded
  form `SubAccountId`.
* JS in-place mutation of the cloned working `SubAccount` is modelled by
  explicit state passing.  A separate store model (`Store`, further down)
  captures the object-reference discipline: `cloneSubAccount` allocates a new
  cell and all writes target that cell, which is what the clone-isolation
  claims are about.
-/

deriving instance DecidableEq for Except

/-- Error taxonomy of `computations.ts`. -/
inductive Err where
  | invalidArgument (msg : String)
  | insufficientLiquidity (msg : String)
  | bugError (msg : String)
  | jsError (msg : String)
  deriving DecidableEq, Repr

/-- Spread direction selector, from `constants.ts` (`SpreadType`). -/
inductive SpreadType where
  | ask
  | bid
  deriving DecidableEq, Repr

/-- Decoded form of a packed sub-account identifier.  The decoder
`decodeSubAccountId` is outside this repository and specified as a pure,
deterministic decode, so ids are represented by their decoded content. -/
structure SubAccountId where
  collateralId : ℕ
  assetId : ℕ
  isLong : Bool
  deriving DecidableEq, Repr

/-- Static per-market configuration (`Asset`), restricted to the fields read by
`computations.ts`. -/
structure Asset where
  symbol : String
  isStable : Bool
  isTradable : Bool
  isOpenable : Bool
  isShortable : Bool
  isEnabled : Bool
  useStableTokenForProfit : Bool
  initialMarginRate : ℚ
  maintenanceMarginRate : ℚ
  positionFeeRate : ℚ
  minProfitTime : ℕ
  minProfitRate : ℚ
  halfSpread : ℚ
  longCumulativeFundingRate : ℚ
  shortCumulativeFunding : ℚ
  longFundingBaseRate8H : ℚ
  longFundingLimitRate8H : ℚ
  spotLiquidity : ℚ
  deriving DecidableEq, Inhabited, Repr

/-- Pool-wide configuration (`LiquidityPool`), restricted to the fields read by
`computations.ts`. -/
structure LiquidityPool where
  liquidityBaseFeeRate : ℚ
  liquidityDynamicFeeRate : ℚ
  shortFundingBaseRate8H : ℚ
  shortFundingLimitRate8H : ℚ
  deriving DecidableEq, Inhabited, Repr

/-- Mutable position state (`SubAccount`). -/
structure SubAccount where
  collateral : ℚ
  size : ℚ
  entryPrice : ℚ
  entryFunding : ℚ
  lastIncreasedTime : ℕ
  deriving DecidableEq, Inhabited, Repr

/-- Derived metrics snapshot (`SubAccountComputed`), with exactly the fields
assigned by the struct literal in `computeSubAccount`. -/
structure SubAccountComputed where
  positionValueUsd : ℚ
  fundingFeeUsd : ℚ
  pendingPnlUsd : ℚ
  pendingPnlAfterFundingUsd : ℚ
  pnlUsd : ℚ
  marginBalanceUsd : ℚ
  isIMSafe : Bool
  isMMSafe : Bool
  isMarginSafe : Bool
  leverage : ℚ
  effectiveLeverage : ℚ
  pendingRoe : ℚ
  liquidationPrice : ℚ
  withdrawableCollateral : ℚ
  withdrawableProfit : ℚ
  deriving DecidableEq, Repr

/-- Read-only snapshot pairing raw state with derived metrics. -/
structure SubAccountDetails where
  subAccount : SubAccount
  computed : SubAccountComputed
  deriving DecidableEq, Repr

/-- Result of `computeOpenPosition`. -/
structure OpenPositionResult where
  afterTrade : SubAccountDetails
  isTradeSafe : Bool
  fundingFeeUsd : ℚ
  feeUsd : ℚ
  deriving DecidableEq, Repr

/-- Result of `computeClosePosition`. -/
structure ClosePositionResult where
  afterTrade : SubAccountDetails
  isTradeSafe : Bool
  feeUsd : ℚ
  profitAssetTransferred : ℚ
  bitoroTokenTransferred : ℚ
  deriving DecidableEq, Repr

/-- Result of `computeWithdrawCollateral`. -/
structure WithdrawCollateralResult where
  afterTrade : SubAccountDetails
  isTradeSafe : Bool
  feeUsd : ℚ
  deriving DecidableEq, Repr

/-- Result of `computeWithdrawProfit`. -/
structure WithdrawProfitResult where
  afterTrade : SubAccountDetails
  isTradeSafe : Bool
  feeUsd : ℚ
  profitAssetTransferred : ℚ
  bitoroTokenTransferred : ℚ
  deriving DecidableEq, Repr

/-- Price mapping supplied by the off-chain broker (`PriceDict`): a symbol may
be absent, which the source detects with a falsiness check. -/
abbrev PriceDict := String → Option ℚ

/-- Array indexing `assets[i]` of the source.  All claim-relevant paths
validate indices against `assets.length` before use, so the default value is
never reached there. -/
def assetAt (assets : List Asset) (i : ℕ) : Asset :=
  assets.getD i default

/-- Result pair of `computePositionPnlUsd`. -/
structure PnlResult where
  pendingPnlUsd : ℚ
  pnlUsd : ℚ
  deriving DecidableEq, Repr

/-- Translation of `computePositionPnlUsd` (`computations.ts` lines 146-166).
`now` stands for the source's `Math.ceil(Date.now() / 1000)`. -/
def computePositionPnlUsd (asset : Asset) (subAccount : SubAccount) (isLong : Bool)
    (amount assetPrice : ℚ) (now : ℕ) : PnlResult :=
  if amount = 0 then ⟨0, 0⟩
  else
    let priceDelta : ℚ :=
      if isLong then assetPrice - subAccount.entryPrice else subAccount.entryPrice - assetPrice
    let pendingPnlUsd := priceDelta * amount
    if 0 < priceDelta ∧ now < subAccount.lastIncreasedTime + asset.minProfitTime ∧
        |priceDelta| < asset.minProfitRate * subAccount.entryPrice then
      ⟨pendingPnlUsd, 0⟩
    else
      ⟨pendingPnlUsd, pendingPnlUsd⟩

/-- Translation of `computeFundingFeeUsd` (lines 180-197). -/
def computeFundingFeeUsd (subAccount : SubAccount) (asset : Asset) (isLong : Bool)
    (assetPrice : ℚ) : ℚ :=
  if subAccount.size = 0 then 0
  else
    let cumulativeFunding : ℚ :=
      if isLong then (asset.longCumulativeFundingRate - subAccount.entryFunding) * assetPrice
      else asset.shortCumulativeFunding - subAccount.entryFunding
    cumulativeFunding * subAccount.size

/-- Translation of the private `_computePositionFeeUsd` (lines 199-205). -/
def computePositionFeeUsd (asset : Asset) (amount assetPrice : ℚ) : ℚ :=
  if amount = 0 then 0 else assetPrice * asset.positionFeeRate * amount

/-- Translation of the private `_computeFeeUsd` (lines 168-178). -/
def computeFeeUsd (subAccount : SubAccount) (asset : Asset) (isLong : Bool)
    (amount assetPrice : ℚ) : ℚ :=
  computeFundingFeeUsd subAccount asset isLong assetPrice +
    computePositionFeeUsd asset amount assetPrice

/-- Translation of the private `_updateEntryFunding` (lines 207-214); the
source's in-place mutation becomes a functional update. -/
def updateEntryFunding (subAccount : SubAccount) (asset : Asset) (isLong : Bool) : SubAccount :=
  { subAccount with
    entryFunding := if isLong then asset.longCumulativeFundingRate
                    else asset.shortCumulativeFunding }

/-- Translation of the private `_estimateLiquidationPrice` (lines 216-255). -/
def estimateLiquidationPrice (assets : List Asset) (collateralId assetId : ℕ) (isLong : Bool)
    (subAccount : SubAccount) (collateralPrice fundingFeeUsd : ℚ) : ℚ :=
  if subAccount.size = 0 then 0
  else
    let asset := assetAt assets assetId
    let longFactor : ℚ := if isLong then 1 else -1
    let t := (longFactor - asset.maintenanceMarginRate) * subAccount.size
    let p : ℚ :=
      if collateralId = assetId then
        max 0 ((longFactor * subAccount.entryPrice * subAccount.size + fundingFeeUsd) /
          (t + subAccount.collateral))
      else
        max 0 ((longFactor * subAccount.entryPrice * subAccount.size + fundingFeeUsd -
          collateralPrice * subAccount.collateral) / t)
    if isLong then p / (1 - asset.halfSpread) else p / (1 + asset.halfSpread)

/-- Translation of `computeSubAccount` (lines 22-93).  The decoded id is passed
directly; `now` stands for the clock read inside `computePositionPnlUsd`. -/
def computeSubAccount (assets : List Asset) (sid : SubAccountId) (subAccount : SubAccount)
    (collateralPrice assetPrice : ℚ) (now : ℕ) : SubAccountDetails :=
  let asset := assetAt assets sid.assetId
  let positionValueUsd := assetPrice * subAccount.size
  let fundingFeeUsd := computeFundingFeeUsd subAccount asset sid.isLong assetPrice
  let pnl := computePositionPnlUsd asset subAccount sid.isLong subAccount.size assetPrice now
  let pendingPnlAfterFundingUsd := pnl.pendingPnlUsd - fundingFeeUsd
  let pnlAfterFundingUsd := pnl.pnlUsd - fundingFeeUsd
  let collateralValue := subAccount.collateral * collateralPrice
  let marginBalanceUsd := collateralValue + pendingPnlAfterFundingUsd
  let isIMSafe := decide (positionValueUsd * asset.initialMarginRate ≤ marginBalanceUsd)
  let isMMSafe := decide (positionValueUsd * asset.maintenanceMarginRate ≤ marginBalanceUsd)
  let isMarginSafe := decide (0 ≤ marginBalanceUsd)
  let leverage : ℚ :=
    if 0 < collateralValue then subAccount.entryPrice * subAccount.size / collateralValue else 0
  let effectiveLeverage : ℚ :=
    if 0 < marginBalanceUsd then positionValueUsd / marginBalanceUsd else 0
  let pendingRoe : ℚ :=
    if 0 < collateralValue then pendingPnlAfterFundingUsd / collateralValue else 0
  let liquidationPrice :=
    estimateLiquidationPrice assets sid.collateralId sid.assetId sid.isLong subAccount
      collateralPrice fundingFeeUsd
  let safeImr := max asset.initialMarginRate (1 / 100)
  let withdrawableCollateral :=
    (max 0 (min (collateralValue + pnlAfterFundingUsd - positionValueUsd * safeImr)
      (collateralValue - fundingFeeUsd - subAccount.entryPrice * subAccount.size * safeImr))) /
      collateralPrice
  let withdrawableProfitUsd :=
    max 0 (min (collateralValue + pnlAfterFundingUsd - positionValueUsd * safeImr)
      pnlAfterFundingUsd)
  let withdrawableProfit :=
    if sid.isLong then withdrawableProfitUsd / assetPrice else withdrawableProfitUsd
  { subAccount := subAccount
    computed :=
    { positionValueUsd := positionValueUsd
      fundingFeeUsd := fundingFeeUsd
      pendingPnlUsd := pnl.pendingPnlUsd
      pendingPnlAfterFundingUsd := pendingPnlAfterFundingUsd
      pnlUsd := pnl.pnlUsd
      marginBalanceUsd := marginBalanceUsd
      isIMSafe := isIMSafe
      isMMSafe := isMMSafe
      isMarginSafe := isMarginSafe
      leverage := leverage
      effectiveLeverage := effectiveLeverage
      pendingRoe := pendingRoe
      liquidationPrice := liquidationPrice
      withdrawableCollateral := withdrawableCollateral
      withdrawableProfit := withdrawableProfit } }

/-- Translation of `computePriceWithSpread` (lines 677-690).  The bid side can
raise a `BugError` when the spread collapses the price to `≤ 0`. -/
def computePriceWithSpread (asset : Asset) (price : ℚ) (spreadType : SpreadType) :
    Except Err ℚ :=
  if asset.halfSpread = 0 then .ok price
  else
    let halfSpread := price * asset.halfSpread
    match spreadType with
    | .bid =>
      if price ≤ halfSpread then .error (.bugError "price - halfSpread = 0. impossible")
      else .ok (price - halfSpread)
    | .ask => .ok (price + halfSpread)

/-- Translation of `computeTradingPrice` (lines 96-125).  Returns the pair
`(collateralPrice, assetPrice)` with the spread applied to the asset price. -/
def computeTradingPrice (assets : List Asset) (sid : SubAccountId) (prices : PriceDict)
    (isOpenPosition : Bool) : Except Err (ℚ × ℚ) :=
  if assets.length ≤ sid.collateralId then .error (.invalidArgument "missing asset")
  else if assets.length ≤ sid.assetId then .error (.invalidArgument "missing asset")
  else
    match prices (assetAt assets sid.collateralId).symbol with
    | none => .error (.invalidArgument "invalid price")
    | some collateralPrice =>
      if collateralPrice ≤ 0 then .error (.invalidArgument "invalid price")
      else
        match prices (assetAt assets sid.assetId).symbol with
        | none => .error (.invalidArgument "invalid price")
        | some assetPrice =>
          if assetPrice ≤ 0 then .error (.invalidArgument "invalid price")
          else
            let spreadType : SpreadType :=
              if isOpenPosition then (if sid.isLong then .ask else .bid)
              else (if sid.isLong then .bid else .ask)
            match computePriceWithSpread (assetAt assets sid.assetId) assetPrice spreadType with
            | .error e => .error e
            | .ok assetPriceWithSpread => .ok (collateralPrice, assetPriceWithSpread)

/-- Profit-asset resolution block shared verbatim by `computeClosePosition`
(lines 333-348) and `computeWithdrawProfit` (lines 461-476): long positions on
assets not forcing stable profit take the position asset itself; otherwise the
caller-chosen profit asset must exist, be stable and have a positive price.
Returns the resolved `(profitAssetId, profitAssetPrice)`. -/
def resolveProfitAsset (assets : List Asset) (assetId : ℕ) (isLong : Bool)
    (profitAssetId : ℕ) (prices : PriceDict) (assetPrice : ℚ) : Except Err (ℕ × ℚ) :=
  if isLong && !(assetAt assets assetId).useStableTokenForProfit then
    .ok (assetId, assetPrice)
  else if assets.length ≤ profitAssetId then .error (.invalidArgument "missing asset")
  else if !(assetAt assets profitAssetId).isStable then
    .error (.invalidArgument "profit asset should be a stable coin")
  else
    match prices (assetAt assets profitAssetId).symbol with
    | none => .error (.invalidArgument "invalid price")
    | some p => if p ≤ 0 then .error (.invalidArgument "invalid price") else .ok (profitAssetId, p)

/-- Clone of a sub-account (`cloneSubAccount` from `types.ts`): at the value
level a clone is the identical record; the store model below captures that it
is a fresh object. -/
def cloneSubAccount (subAccount : SubAccount) : SubAccount := subAccount

/-- Result triple of `computeRealizeProfit`. -/
structure RealizeProfitResult where
  deductUsd : ℚ
  profitAssetTransferred : ℚ
  bitoroTokenTransferred : ℚ
  deriving DecidableEq, Repr

/-- Translation of `computeRealizeProfit` (lines 526-551). -/
def computeRealizeProfit (profitUsd feeUsd : ℚ) (profitAsset : Asset)
    (profitAssetPrice : ℚ) : RealizeProfitResult :=
  let deductUsd := min profitUsd feeUsd
  let remainingUsd := profitUsd - deductUsd
  if 0 < remainingUsd then
    let profitCollateral := remainingUsd / profitAssetPrice
    let spot := min profitCollateral profitAsset.spotLiquidity
    let profitAssetTransferred := if 0 < spot then spot else 0
    let debtWadAmount := profitCollateral - spot
    let bitoroTokenTransferred := if 0 < debtWadAmount then debtWadAmount else 0
    ⟨deductUsd, profitAssetTransferred, bitoroTokenTransferred⟩
  else
    ⟨deductUsd, 0, 0⟩

/-- Translation of `computeRealizeLoss` (lines 553-571).  The in-place
collateral mutation becomes a returned account; the `isThrowBankrupt` branch
raises the source's `Error('bankrupt')`. -/
def computeRealizeLoss (subAccount : SubAccount) (collateralPrice lossUsd : ℚ)
    (isThrowBankrupt : Bool) : Except Err SubAccount :=
  if lossUsd = 0 then .ok subAccount
  else
    let lossCollateral := lossUsd / collateralPrice
    if isThrowBankrupt then
      if subAccount.collateral < lossCollateral then .error (.jsError "bankrupt")
      else .ok { subAccount with collateral := subAccount.collateral - lossCollateral }
    else
      let clamped := min lossCollateral subAccount.collateral
      .ok { subAccount with collateral := subAccount.collateral - clamped }

/-- Fee-shortfall settlement step of `computeClosePosition` (lines 387-401):
given the collateral after pnl realization, the fee already paid out of
realized profit, the total fee, the gas fee and the collateral price, returns
the new `(collateral, paidFeeUsd)`. -/
def settleCloseFees (collateral paidFeeUsd totalFeeUsd brokerGasFee collateralPrice : ℚ) :
    ℚ × ℚ :=
  if 0 < brokerGasFee ∨ paidFeeUsd < totalFeeUsd then
    let feeCollateral := (totalFeeUsd - paidFeeUsd) / collateralPrice
    let feeAndGasCollateral := feeCollateral + brokerGasFee
    if collateral < feeAndGasCollateral then
      let clampedFeeCollateral : ℚ :=
        if collateral < brokerGasFee then 0 else collateral - brokerGasFee
      (collateral - collateral, paidFeeUsd + clampedFeeCollateral * collateralPrice)
    else
      (collateral - feeAndGasCollateral, paidFeeUsd + feeCollateral * collateralPrice)
  else (collateral, paidFeeUsd)

/-- Protection condition of `computeOpenPosition` (lines 276-285). -/
def openProtectionViolated (assets : List Asset) (sid : SubAccountId) : Bool :=
  (assetAt assets sid.assetId).isStable ||
  !(assetAt assets sid.assetId).isTradable ||
  !(assetAt assets sid.assetId).isOpenable ||
  !(assetAt assets sid.assetId).isEnabled ||
  !(assetAt assets sid.collateralId).isEnabled ||
  (!sid.isLong && !(assetAt assets sid.assetId).isShortable)

/-- Protection condition shared by `computeClosePosition` (lines 356-364) and
`computeWithdrawProfit` (lines 481-489). -/
def closeProtectionViolated (assets : List Asset) (sid : SubAccountId) : Bool :=
  (assetAt assets sid.assetId).isStable ||
  !(assetAt assets sid.assetId).isTradable ||
  !(assetAt assets sid.assetId).isEnabled ||
  !(assetAt assets sid.collateralId).isEnabled ||
  (!sid.isLong && !(assetAt assets sid.assetId).isShortable)

/-- Translation of `computeOpenPosition` (lines 257-318).  The cloned working
copy is threaded functionally; `now` is the clock reading, also stamped into
`lastIncreasedTime`. -/
def computeOpenPosition (assets : List Asset) (sid : SubAccountId) (subAccount0 : SubAccount)
    (prices : PriceDict) (amount brokerGasFee : ℚ) (now : ℕ) :
    Except Err OpenPositionResult :=
  let subAccount := cloneSubAccount subAccount0
  match computeTradingPrice assets sid prices true with
  | .error e => .error e
  | .ok (collateralPrice, assetPrice) =>
    if amount ≤ 0 then .error (.invalidArgument "invalid amount")
    else if brokerGasFee < 0 then .error (.invalidArgument "invalid gasFee")
    else if openProtectionViolated assets sid then .error (.invalidArgument "not tradable")
    else
      let asset := assetAt assets sid.assetId
      let fundingFeeUsd := computeFundingFeeUsd subAccount asset sid.isLong assetPrice
      let feeUsd := computeFeeUsd subAccount asset sid.isLong amount assetPrice
      let subAccount := updateEntryFunding subAccount asset sid.isLong
      let feeCollateral := feeUsd / collateralPrice + brokerGasFee
      let subAccount := { subAccount with collateral := subAccount.collateral - feeCollateral }
      let pnl := computePositionPnlUsd asset subAccount sid.isLong amount assetPrice now
      let newSize := subAccount.size + amount
      let newEntryPrice : ℚ :=
        if pnl.pnlUsd = 0 then assetPrice
        else (subAccount.entryPrice * subAccount.size + assetPrice * amount) / newSize
      let subAccount :=
        { subAccount with entryPrice := newEntryPrice, size := newSize, lastIncreasedTime := now }
      let afterTrade := computeSubAccount assets sid subAccount collateralPrice assetPrice now
      .ok { afterTrade := afterTrade
            isTradeSafe := afterTrade.computed.isIMSafe
            fundingFeeUsd := fundingFeeUsd
            feeUsd := feeUsd }

/-- Tail of `computeClosePosition` after pnl realization (lines 381-410):
size reduction, flat-position reset, fee-shortfall settlement and post-trade
snapshot.  `paidFeeUsd` is the fee already covered out of realized profit. -/
def closeTail (assets : List Asset) (sid : SubAccountId) (subAccount0 : SubAccount)
    (paidFeeUsd profitAssetTransferred bitoroTokenTransferred totalFeeUsd brokerGasFee
      collateralPrice assetPrice : ℚ) (now : ℕ) (amount : ℚ) : ClosePositionResult :=
  let subAccount : SubAccount := { subAccount0 with size := subAccount0.size - amount }
  let subAccount : SubAccount :=
    if subAccount.size = 0 then
      { subAccount with entryPrice := 0, entryFunding := 0, lastIncreasedTime := 0 }
    else subAccount
  let settled := settleCloseFees subAccount.collateral paidFeeUsd totalFeeUsd
    brokerGasFee collateralPrice
  let subAccount : SubAccount := { subAccount with collateral := settled.1 }
  let afterTrade := computeSubAccount assets sid subAccount collateralPrice assetPrice now
  { afterTrade := afterTrade
    isTradeSafe := afterTrade.computed.isMarginSafe
    feeUsd := settled.2
    profitAssetTransferred := profitAssetTransferred
    bitoroTokenTransferred := bitoroTokenTransferred }

/-- Translation of `computeClosePosition` (lines 320-411). -/
def computeClosePosition (assets : List Asset) (sid : SubAccountId) (subAccount0 : SubAccount)
    (profitAssetId : ℕ) (prices : PriceDict) (amount brokerGasFee : ℚ) (now : ℕ) :
    Except Err ClosePositionResult :=
  let subAccount := cloneSubAccount subAccount0
  match computeTradingPrice assets sid prices false with
  | .error e => .error e
  | .ok (collateralPrice, assetPrice) =>
    match resolveProfitAsset assets sid.assetId sid.isLong profitAssetId prices assetPrice with
    | .error e => .error e
    | .ok (profitAssetId, profitAssetPrice) =>
      if amount ≤ 0 ∨ subAccount.size < amount then .error (.invalidArgument "invalid amount")
      else if brokerGasFee < 0 then .error (.invalidArgument "invalid gasFee")
      else if closeProtectionViolated assets sid then .error (.invalidArgument "not tradable")
      else
        let asset := assetAt assets sid.assetId
        let totalFeeUsd := computeFeeUsd subAccount asset sid.isLong amount assetPrice
        let subAccount := updateEntryFunding subAccount asset sid.isLong
        let pnlUsd := (computePositionPnlUsd asset subAccount sid.isLong amount assetPrice now).pnlUsd
        if 0 < pnlUsd then
          let r := computeRealizeProfit pnlUsd totalFeeUsd (assetAt assets profitAssetId)
            profitAssetPrice
          .ok (closeTail assets sid subAccount r.deductUsd r.profitAssetTransferred
            r.bitoroTokenTransferred totalFeeUsd brokerGasFee collateralPrice assetPrice now
            amount)
        else if pnlUsd < 0 then
          match computeRealizeLoss subAccount collateralPrice (-pnlUsd) true with
          | .error e => .error e
          | .ok a => .ok (closeTail assets sid a 0 0 0 totalFeeUsd brokerGasFee
            collateralPrice assetPrice now amount)
        else .ok (closeTail assets sid subAccount 0 0 0 totalFeeUsd brokerGasFee
          collateralPrice assetPrice now amount)

/-- Translation of `computeWithdrawCollateral` (lines 413-447). -/
def computeWithdrawCollateral (assets : List Asset) (sid : SubAccountId)
    (subAccount0 : SubAccount) (prices : PriceDict) (amount : ℚ) (now : ℕ) :
    Except Err WithdrawCollateralResult :=
  let subAccount := cloneSubAccount subAccount0
  match computeTradingPrice assets sid prices false with
  | .error e => .error e
  | .ok (collateralPrice, assetPrice) =>
    if amount ≤ 0 then .error (.invalidArgument "invalid amount")
    else if !(assetAt assets sid.assetId).isEnabled ||
        !(assetAt assets sid.collateralId).isEnabled then
      .error (.invalidArgument "not tradable")
    else
      let totalFeeUsd :=
        computeFundingFeeUsd subAccount (assetAt assets sid.assetId) sid.isLong assetPrice
      let subAccount :=
        if 0 < subAccount.size then
          updateEntryFunding subAccount (assetAt assets sid.assetId) sid.isLong
        else subAccount
      let feeCollateral := totalFeeUsd / collateralPrice
      let subAccount := { subAccount with collateral := subAccount.collateral - feeCollateral }
      let subAccount := { subAccount with collateral := subAccount.collateral - amount }
      let afterTrade := computeSubAccount assets sid subAccount collateralPrice assetPrice now
      .ok { afterTrade := afterTrade
            isTradeSafe := afterTrade.computed.isIMSafe
            feeUsd := totalFeeUsd }

/-- Translation of `computeWithdrawProfit` (lines 449-524). -/
def computeWithdrawProfit (assets : List Asset) (sid : SubAccountId) (subAccount0 : SubAccount)
    (profitAssetId : ℕ) (prices : PriceDict) (amount : ℚ) (now : ℕ) :
    Except Err WithdrawProfitResult :=
  let subAccount := cloneSubAccount subAccount0
  match computeTradingPrice assets sid prices false with
  | .error e => .error e
  | .ok (collateralPrice, assetPrice) =>
    match resolveProfitAsset assets sid.assetId sid.isLong profitAssetId prices assetPrice with
    | .error e => .error e
    | .ok (profitAssetId, profitAssetPrice) =>
      if amount ≤ 0 then .error (.invalidArgument "invalid amount")
      else if closeProtectionViolated assets sid then .error (.invalidArgument "not tradable")
      else if subAccount.size = 0 then .error (.invalidArgument "empty position")
      else
        let asset := assetAt assets sid.assetId
        let totalFeeUsd := computeFundingFeeUsd subAccount asset sid.isLong assetPrice
        let subAccount := updateEntryFunding subAccount asset sid.isLong
        let deltaUsd := amount * profitAssetPrice + totalFeeUsd
        let pnlUsd :=
          (computePositionPnlUsd asset subAccount sid.isLong subAccount.size assetPrice now).pnlUsd
        if pnlUsd < deltaUsd then .error (.jsError "insufficient pnl")
        else
          let r := computeRealizeProfit pnlUsd totalFeeUsd (assetAt assets profitAssetId)
            profitAssetPrice
          let subAccount :=
            if sid.isLong then
              { subAccount with entryPrice := subAccount.entryPrice + deltaUsd / subAccount.size }
            else
              { subAccount with entryPrice := subAccount.entryPrice - deltaUsd / subAccount.size }
          let afterTrade := computeSubAccount assets sid subAccount collateralPrice assetPrice now
          .ok { afterTrade := afterTrade
                isTradeSafe := afterTrade.computed.isIMSafe
                feeUsd := totalFeeUsd
                profitAssetTransferred := r.profitAssetTransferred
                bitoroTokenTransferred := r.bitoroTokenTransferred }

/-- Rounding of `BigNumber.dp(5, ROUND_DOWN)`: round toward zero at five
decimal places. -/
def roundDown5 (x : ℚ) : ℚ :=
  ((if 0 ≤ x then ⌊x * 100000⌋ else ⌈x * 100000⌉ : ℤ) : ℚ) / 100000

/-- Translation of `computeLiquidityFeeRate` (lines 573-617). -/
def computeLiquidityFeeRate (poolConfig : LiquidityPool)
    (currentAssetValue targetAssetValue : ℚ) (isAdd : Bool) (deltaValue : ℚ) :
    Except Err ℚ :=
  let baseFeeRate := poolConfig.liquidityBaseFeeRate
  let dynamicFeeRate := poolConfig.liquidityDynamicFeeRate
  let newAssetValueE : Except Err ℚ :=
    if isAdd then .ok (currentAssetValue + deltaValue)
    else if currentAssetValue < deltaValue then
      .error (.insufficientLiquidity "removed value > liquidity")
    else .ok (currentAssetValue - deltaValue)
  match newAssetValueE with
  | .error e => .error e
  | .ok newAssetValue =>
    let oldDiff := |currentAssetValue - targetAssetValue|
    let newDiff := |newAssetValue - targetAssetValue|
    if targetAssetValue = 0 then .ok baseFeeRate
    else if newDiff < oldDiff then
      let rebate := roundDown5 (dynamicFeeRate * oldDiff / targetAssetValue)
      .ok (max 0 (baseFeeRate - rebate))
    else
      let avgDiff := min ((oldDiff + newDiff) / 2) targetAssetValue
      .ok (baseFeeRate + roundDown5 (dynamicFeeRate * avgDiff / targetAssetValue))

/-!
Store model.  The clone-isolation property is a statement about JS object
references: each simulation function first rebinds its `subAccount` parameter
to `cloneSubAccount(subAccount)` and every subsequent field assignment targets
the clone.  To state this, sub-account objects live in a store of numbered
cells; `allocClone` models `cloneSubAccount` (a fresh cell holding a copy), and
each source assignment becomes a write to the working cell.  A call receives
the caller's cell index and returns the final store, so the store is preserved
across a throw exactly as a JS heap is.
-/

/-- Heap of `SubAccount` objects: cell contents plus the next fresh index. -/
structure Store where
  mem : ℕ → SubAccount
  next : ℕ

/-- Read the object in cell `r`. -/
def Store.read (σ : Store) (r : ℕ) : SubAccount := σ.mem r

/-- Overwrite the object in cell `r`. -/
def Store.write (σ : Store) (r : ℕ) (a : SubAccount) : Store :=
  ⟨fun i => if i = r then a else σ.mem i, σ.next⟩

/-- Allocate a fresh cell holding `a`; returns the new store and the cell. -/
def Store.alloc (σ : Store) (a : SubAccount) : Store × ℕ :=
  (⟨fun i => if i = σ.next then a else σ.mem i, σ.next + 1⟩, σ.next)

@[simp] theorem Store.read_write_ne (σ : Store) (r w : ℕ) (a : SubAccount) (h : r ≠ w) :
    (σ.write w a).read r = σ.read r := by
  simp [Store.read, Store.write, h]

@[simp] theorem Store.read_write_self (σ : Store) (w : ℕ) (a : SubAccount) :
    (σ.write w a).read w = a := by
  simp [Store.read, Store.write]

@[simp] theorem Store.write_next (σ : Store) (w : ℕ) (a : SubAccount) :
    (σ.write w a).next = σ.next := rfl

@[simp] theorem Store.alloc_fst_next (σ : Store) (a : SubAccount) :
    (σ.alloc a).1.next = σ.next + 1 := rfl

@[simp] theorem Store.alloc_snd (σ : Store) (a : SubAccount) :
    (σ.alloc a).2 = σ.next := rfl

@[simp] theorem Store.read_alloc_of_lt (σ : Store) (a : SubAccount) (r : ℕ)
    (h : r < σ.next) : (σ.alloc a).1.read r = σ.read r := by
  simp [Store.read, Store.alloc, Nat.ne_of_lt h]

@[simp] theorem Store.read_alloc_self (σ : Store) (a : SubAccount) :
    (σ.alloc a).1.read σ.next = a := by
  simp [Store.read, Store.alloc]

/-- Store-level translation of `computeOpenPosition`: `cloneSubAccount` is the
allocation of a fresh cell copying the caller's cell `r`; every mutation of the
source targets the clone cell.  Returns the final store and the outcome. -/
def computeOpenPositionRef (assets : List Asset) (sid : SubAccountId) (σ0 : Store) (r : ℕ)
    (prices : PriceDict) (amount brokerGasFee : ℚ) (now : ℕ) :
    Store × Except Err OpenPositionResult :=
  let alloc := σ0.alloc (σ0.read r)
  let σ := alloc.1
  let rc := alloc.2
  match computeTradingPrice assets sid prices true with
  | .error e => (σ, .error e)
  | .ok (collateralPrice, assetPrice) =>
    if amount ≤ 0 then (σ, .error (.invalidArgument "invalid amount"))
    else if brokerGasFee < 0 then (σ, .error (.invalidArgument "invalid gasFee"))
    else if openProtectionViolated assets sid then (σ, .error (.invalidArgument "not tradable"))
    else
      let asset := assetAt assets sid.assetId
      let fundingFeeUsd := computeFundingFeeUsd (σ.read rc) asset sid.isLong assetPrice
      let feeUsd := computeFeeUsd (σ.read rc) asset sid.isLong amount assetPrice
      let σ := σ.write rc (updateEntryFunding (σ.read rc) asset sid.isLong)
      let feeCollateral := feeUsd / collateralPrice + brokerGasFee
      let σ := σ.write rc
        { σ.read rc with collateral := (σ.read rc).collateral - feeCollateral }
      let pnl := computePositionPnlUsd asset (σ.read rc) sid.isLong amount assetPrice now
      let newSize := (σ.read rc).size + amount
      let newEntryPrice : ℚ :=
        if pnl.pnlUsd = 0 then assetPrice
        else ((σ.read rc).entryPrice * (σ.read rc).size + assetPrice * amount) / newSize
      let σ := σ.write rc { σ.read rc with entryPrice := newEntryPrice }
      let σ := σ.write rc { σ.read rc with size := newSize }
      let σ := σ.write rc { σ.read rc with lastIncreasedTime := now }
      let afterTrade := computeSubAccount assets sid (σ.read rc) collateralPrice assetPrice now
      (σ, .ok { afterTrade := afterTrade
                isTradeSafe := afterTrade.computed.isIMSafe
                fundingFeeUsd := fundingFeeUsd
                feeUsd := feeUsd })

/-- Store-level translation of `computeRealizeLoss`: mutates the cell `r` it is
given (inside `computeClosePosition` that is the clone cell). -/
def computeRealizeLossRef (σ : Store) (r : ℕ) (collateralPrice lossUsd : ℚ)
    (isThrowBankrupt : Bool) : Store × Except Err Unit :=
  if lossUsd = 0 then (σ, .ok ())
  else
    let lossCollateral := lossUsd / collateralPrice
    if isThrowBankrupt then
      if (σ.read r).collateral < lossCollateral then (σ, .error (.jsError "bankrupt"))
      else (σ.write r { σ.read r with collateral := (σ.read r).collateral - lossCollateral },
        .ok ())
    else
      let clamped := min lossCollateral (σ.read r).collateral
      (σ.write r { σ.read r with collateral := (σ.read r).collateral - clamped }, .ok ())

/-- Store-level tail of `computeClosePosition` (lines 381-410), mutating the
clone cell `rc`. -/
def closeTailRef (assets : List Asset) (sid : SubAccountId) (σ0 : Store) (rc : ℕ)
    (paidFeeUsd profitAssetTransferred bitoroTokenTransferred totalFeeUsd brokerGasFee
      collateralPrice assetPrice : ℚ) (now : ℕ) (amount : ℚ) :
    Store × Except Err ClosePositionResult :=
  let σ := σ0.write rc { σ0.read rc with size := (σ0.read rc).size - amount }
  let σ :=
    if (σ.read rc).size = 0 then
      σ.write rc
        { σ.read rc with entryPrice := 0, entryFunding := 0, lastIncreasedTime := 0 }
    else σ
  let settled := settleCloseFees (σ.read rc).collateral paidFeeUsd totalFeeUsd
    brokerGasFee collateralPrice
  let σ := σ.write rc { σ.read rc with collateral := settled.1 }
  let afterTrade := computeSubAccount assets sid (σ.read rc) collateralPrice assetPrice now
  (σ, .ok { afterTrade := afterTrade
            isTradeSafe := afterTrade.computed.isMarginSafe
            feeUsd := settled.2
            profitAssetTransferred := profitAssetTransferred
            bitoroTokenTransferred := bitoroTokenTransferred })

/-- Store-level translation of `computeClosePosition`. -/
def computeClosePositionRef (assets : List Asset) (sid : SubAccountId) (σ0 : Store) (r : ℕ)
    (profitAssetId : ℕ) (prices : PriceDict) (amount brokerGasFee : ℚ) (now : ℕ) :
    Store × Except Err ClosePositionResult :=
  let alloc := σ0.alloc (σ0.read r)
  let σ := alloc.1
  let rc := alloc.2
  match computeTradingPrice assets sid prices false with
  | .error e => (σ, .error e)
  | .ok (collateralPrice, assetPrice) =>
    match resolveProfitAsset assets sid.assetId sid.isLong profitAssetId prices assetPrice with
    | .error e => (σ, .error e)
    | .ok (profitAssetId, profitAssetPrice) =>
      if amount ≤ 0 ∨ (σ.read rc).size < amount then
        (σ, .error (.invalidArgument "invalid amount"))
      else if brokerGasFee < 0 then (σ, .error (.invalidArgument "invalid gasFee"))
      else if closeProtectionViolated assets sid then
        (σ, .error (.invalidArgument "not tradable"))
      else
        let asset := assetAt assets sid.assetId
        let totalFeeUsd := computeFeeUsd (σ.read rc) asset sid.isLong amount assetPrice
        let σ := σ.write rc (updateEntryFunding (σ.read rc) asset sid.isLong)
        let pnlUsd :=
          (computePositionPnlUsd asset (σ.read rc) sid.isLong amount assetPrice now).pnlUsd
        if 0 < pnlUsd then
          let rr := computeRealizeProfit pnlUsd totalFeeUsd (assetAt assets profitAssetId)
            profitAssetPrice
          closeTailRef assets sid σ rc rr.deductUsd rr.profitAssetTransferred
            rr.bitoroTokenTransferred totalFeeUsd brokerGasFee collateralPrice assetPrice now
            amount
        else if pnlUsd < 0 then
          let rl := computeRealizeLossRef σ rc collateralPrice (-pnlUsd) true
          match rl.2 with
          | .error e => (rl.1, .error e)
          | .ok _ => closeTailRef assets sid rl.1 rc 0 0 0 totalFeeUsd brokerGasFee
            collateralPrice assetPrice now amount
        else closeTailRef assets sid σ rc 0 0 0 totalFeeUsd brokerGasFee collateralPrice
          assetPrice now amount

/-- Store-level translation of `computeWithdrawCollateral`. -/
def computeWithdrawCollateralRef (assets : List Asset) (sid : SubAccountId) (σ0 : Store)
    (r : ℕ) (prices : PriceDict) (amount : ℚ) (now : ℕ) :
    Store × Except Err WithdrawCollateralResult :=
  let alloc := σ0.alloc (σ0.read r)
  let σ := alloc.1
  let rc := alloc.2
  match computeTradingPrice assets sid prices false with
  | .error e => (σ, .error e)
  | .ok (collateralPrice, assetPrice) =>
    if amount ≤ 0 then (σ, .error (.invalidArgument "invalid amount"))
    else if !(assetAt assets sid.assetId).isEnabled ||
        !(assetAt assets sid.collateralId).isEnabled then
      (σ, .error (.invalidArgument "not tradable"))
    else
      let totalFeeUsd :=
        computeFundingFeeUsd (σ.read rc) (assetAt assets sid.assetId) sid.isLong assetPrice
      let σ :=
        if 0 < (σ.read rc).size then
          σ.write rc (updateEntryFunding (σ.read rc) (assetAt assets sid.assetId) sid.isLong)
        else σ
      let feeCollateral := totalFeeUsd / collateralPrice
      let σ := σ.write rc
        { σ.read rc with collateral := (σ.read rc).collateral - feeCollateral }
      let σ := σ.write rc { σ.read rc with collateral := (σ.read rc).collateral - amount }
      let afterTrade := computeSubAccount assets sid (σ.read rc) collateralPrice assetPrice now
      (σ, .ok { afterTrade := afterTrade
                isTradeSafe := afterTrade.computed.isIMSafe
                feeUsd := totalFeeUsd })

/-- Store-level translation of `computeWithdrawProfit`. -/
def computeWithdrawProfitRef (assets : List Asset) (sid : SubAccountId) (σ0 : Store) (r : ℕ)
    (profitAssetId : ℕ) (prices : PriceDict) (amount : ℚ) (now : ℕ) :
    Store × Except Err WithdrawProfitResult :=
  let alloc := σ0.alloc (σ0.read r)
  let σ := alloc.1
  let rc := alloc.2
  match computeTradingPrice assets sid prices false with
  | .error e => (σ, .error e)
  | .ok (collateralPrice, assetPrice) =>
    match resolveProfitAsset assets sid.assetId sid.isLong profitAssetId prices assetPrice with
    | .error e => (σ, .error e)
    | .ok (profitAssetId, profitAssetPrice) =>
      if amount ≤ 0 then (σ, .error (.invalidArgument "invalid amount"))
      else if closeProtectionViolated assets sid then
        (σ, .error (.invalidArgument "not tradable"))
      else if (σ.read rc).size = 0 then (σ, .error (.invalidArgument "empty position"))
      else
        let asset := assetAt assets sid.assetId
        let totalFeeUsd := computeFundingFeeUsd (σ.read rc) asset sid.isLong assetPrice
        let σ := σ.write rc (updateEntryFunding (σ.read rc) asset sid.isLong)
        let deltaUsd := amount * profitAssetPrice + totalFeeUsd
        let pnlUsd := (computePositionPnlUsd asset (σ.read rc) sid.isLong (σ.read rc).size
          assetPrice now).pnlUsd
        if pnlUsd < deltaUsd then (σ, .error (.jsError "insufficient pnl"))
        else
          let rr := computeRealizeProfit pnlUsd totalFeeUsd (assetAt assets profitAssetId)
            profitAssetPrice
          let σ :=
            if sid.isLong then
              σ.write rc { σ.read rc with
                entryPrice := (σ.read rc).entryPrice + deltaUsd / (σ.read rc).size }
            else
              σ.write rc { σ.read rc with
                entryPrice := (σ.read rc).entryPrice - deltaUsd / (σ.read rc).size }
          let afterTrade := computeSubAccount assets sid (σ.read rc) collateralPrice assetPrice now
          (σ, .ok { afterTrade := afterTrade
                    isTradeSafe := afterTrade.computed.isIMSafe
                    feeUsd := totalFeeUsd
                    profitAssetTransferred := rr.profitAssetTransferred
                    bitoroTokenTransferred := rr.bitoroTokenTransferred })

/-!
Concrete fixtures used by witnesses and counterexamples: a stable collateral
asset at index 0 (symbol "A", price 1) and an unstable position asset at
index 1 (symbol "B"), long direction, no spread, no fees, no funding.
-/

/-- Stable collateral asset at index 0. -/
def stableA : Asset :=
  { symbol := "A", isStable := true, isTradable := true, isOpenable := true,
    isShortable := true, isEnabled := true, useStableTokenForProfit := false,
    initialMarginRate := 1/100, maintenanceMarginRate := 1/200, positionFeeRate := 0,
    minProfitTime := 0, minProfitRate := 0, halfSpread := 0,
    longCumulativeFundingRate := 0, shortCumulativeFunding := 0,
    longFundingBaseRate8H := 0, longFundingLimitRate8H := 0, spotLiquidity := 1000 }

/-- Unstable position asset at index 1. -/
def assetB : Asset :=
  { stableA with symbol := "B", isStable := false }

/-- Variant of `assetB` with an active minimum-profit-time lockup window. -/
def assetBLock : Asset :=
  { assetB with minProfitTime := 600, minProfitRate := 1 }

/-- Demo decoded sub-account id: collateral asset 0, position asset 1, long. -/
def demoSid : SubAccountId := ⟨0, 1, true⟩

/-- Demo price dictionary: symbol "A" at 1, symbol "B" at `p`. -/
def demoPrices (p : ℚ) : PriceDict :=
  fun s => if s = "A" then some 1 else if s = "B" then some p else none

/-- C7: for a positive target, `computeLiquidityFeeRate` rebates operations
that strictly reduce the deviation from target (`max 0 (base - rebate)` with
the rebate rounded down at five decimals), surcharges operations that worsen or
keep the deviation (`base` plus the dynamic fee on `min((oldDiff+newDiff)/2,
target)`), returns the base rate when the target is zero, and on the concrete
example (base 0.0002, dynamic 0.01, current 100, target 100, adding 10) yields
0.0007. -/
theorem computeLiquidityFeeRate_spec (poolConfig : LiquidityPool)
    (currentAssetValue targetAssetValue deltaValue : ℚ) (isAdd : Bool)
    (hrem : isAdd = true ∨ deltaValue ≤ currentAssetValue) :
    (let newAssetValue : ℚ :=
      if isAdd then currentAssetValue + deltaValue else currentAssetValue - deltaValue
     let oldDiff := |currentAssetValue - targetAssetValue|
     let newDiff := |newAssetValue - targetAssetValue|
     (targetAssetValue = 0 →
       computeLiquidityFeeRate poolConfig currentAssetValue targetAssetValue isAdd deltaValue =
         .ok poolConfig.liquidityBaseFeeRate) ∧
     (0 < targetAssetValue → newDiff < oldDiff →
       computeLiquidityFeeRate poolConfig currentAssetValue targetAssetValue isAdd deltaValue =
         .ok (max 0 (poolConfig.liquidityBaseFeeRate -
           roundDown5 (poolConfig.liquidityDynamicFeeRate * oldDiff / targetAssetValue)))) ∧
     (0 < targetAssetValue → oldDiff ≤ newDiff →
       computeLiquidityFeeRate poolConfig currentAssetValue targetAssetValue isAdd deltaValue =
         .ok (poolConfig.liquidityBaseFeeRate +
           roundDown5 (poolConfig.liquidityDynamicFeeRate *
             min ((oldDiff + newDiff) / 2) targetAssetValue / targetAssetValue)))) ∧
    computeLiquidityFeeRate ⟨2/10000, 1/100, 0, 0⟩ 100 100 true 10 = .ok (7/10000) := by
  constructor
  · have hok : (if isAdd then Except.ok (currentAssetValue + deltaValue)
        else if currentAssetValue < deltaValue then
          Except.error (Err.insufficientLiquidity "removed value > liquidity")
        else Except.ok (currentAssetValue - deltaValue)) =
        Except.ok (if isAdd then currentAssetValue + deltaValue else currentAssetValue - deltaValue) := by
      rcases hrem with h | h
      · simp [h]
      · rcases isAdd with _ | _
        · simp [not_lt.mpr h]
        · simp
    refine ⟨?_, ?_, ?_⟩
    · intro h0
      simp only [computeLiquidityFeeRate, hok, h0]
      simp
    · intro hpos himp
      have h0 : targetAssetValue ≠ 0 := ne_of_gt hpos
      simp only [computeLiquidityFeeRate, hok]
      simp only [h0, if_false, himp, if_true]
    · intro hpos hwor
      have h0 : targetAssetValue ≠ 0 := ne_of_gt hpos
      simp only [computeLiquidityFeeRate, hok]
      simp only [h0, if_false, not_lt.mpr hwor, if_true]
  · norm_num [computeLiquidityFeeRate, roundDown5]

/-- Witness for `computeLiquidityFeeRate_spec`: improving case at base 0.0002,
dynamic 0.01, current 110, target 100, removing 10 (oldDiff 10, newDiff 0),
rebate 0.001, fee clamped to 0. -/
theorem computeLiquidityFeeRate_spec_witness :
    computeLiquidityFeeRate ⟨2/10000, 1/100, 0, 0⟩ 110 100 false 10 = .ok (max 0 (2/10000 - roundDown5 ((1/100) * |(110 : ℚ) - 100| / 100))) :=
  ((computeLiquidityFeeRate_spec ⟨2/10000, 1/100, 0, 0⟩ 110 100 10 false
    (Or.inr (by norm_num))).1.2.1 (by norm_num) (by norm_num)).trans (by norm_num)

/-- C3: the fee-shortfall settlement step of `computeClosePosition` (lines
387-401), starting from a nonnegative collateral (the state after loss
realization), never drives collateral negative: when collateral cannot cover
the uncovered fee plus gas, the whole remaining collateral is taken (final
collateral 0), gas is paid first and only the excess over gas counts as paid
fee (zero when collateral is below gas); when it can, exactly the uncovered
fee plus gas is deducted. -/
theorem settleCloseFees_spec (collateral paidFeeUsd totalFeeUsd brokerGasFee collateralPrice : ℚ)
    (hc : 0 ≤ collateral) :
    0 ≤ (settleCloseFees collateral paidFeeUsd totalFeeUsd brokerGasFee collateralPrice).1 ∧
    ((0 < brokerGasFee ∨ paidFeeUsd < totalFeeUsd) →
      collateral < (totalFeeUsd - paidFeeUsd) / collateralPrice + brokerGasFee →
      (settleCloseFees collateral paidFeeUsd totalFeeUsd brokerGasFee collateralPrice).1 = 0 ∧
      (settleCloseFees collateral paidFeeUsd totalFeeUsd brokerGasFee collateralPrice).2 =
        paidFeeUsd + (if collateral < brokerGasFee then 0 else collateral - brokerGasFee) *
          collateralPrice) ∧
    ((0 < brokerGasFee ∨ paidFeeUsd < totalFeeUsd) →
      (totalFeeUsd - paidFeeUsd) / collateralPrice + brokerGasFee ≤ collateral →
      (settleCloseFees collateral paidFeeUsd totalFeeUsd brokerGasFee collateralPrice).1 =
        collateral - ((totalFeeUsd - paidFeeUsd) / collateralPrice + brokerGasFee)) := by
  refine ⟨?_, ?_, ?_⟩
  · by_cases h1 : 0 < brokerGasFee ∨ paidFeeUsd < totalFeeUsd
    · by_cases h2 : collateral < (totalFeeUsd - paidFeeUsd) / collateralPrice + brokerGasFee
      · simp [settleCloseFees, h1, h2]
      · simp only [settleCloseFees, if_pos h1, if_neg h2]
        push_neg at h2
        show 0 ≤ collateral - ((totalFeeUsd - paidFeeUsd) / collateralPrice + brokerGasFee)
        linarith
    · simpa [settleCloseFees, h1] using hc
  · intro hrun hlt
    simp only [settleCloseFees, if_pos hrun, if_pos hlt]
    exact ⟨by simp, trivial⟩
  · intro hrun hge
    simp only [settleCloseFees, if_pos hrun, if_neg (not_lt.mpr hge)]

/-- Witness for `settleCloseFees_spec`: collateral 1, no fee paid yet, total
fee 5, gas 2, collateral price 1; the shortfall branch takes everything, gas
first, so the paid fee stays 0. -/
theorem settleCloseFees_spec_witness :
    (settleCloseFees 1 0 5 2 1).1 = 0 ∧
    (settleCloseFees 1 0 5 2 1).2 =
      0 + (if (1 : ℚ) < 2 then 0 else 1 - 2) * 1 :=
  (settleCloseFees_spec 1 0 5 2 1 (by norm_num)).2.1 (Or.inl (by norm_num)) (by norm_num)

/-- Helper: `computePositionPnlUsd` depends on the clock reading only through
the minimum-profit-time lockup test `now < lastIncreasedTime + minProfitTime`;
two readings that agree on that test give identical results. -/
theorem computePositionPnlUsd_clock_congr (asset : Asset) (a : SubAccount) (isLong : Bool)
    (amount assetPrice : ℚ) (now1 now2 : ℕ)
    (h : now1 < a.lastIncreasedTime + asset.minProfitTime ↔
         now2 < a.lastIncreasedTime + asset.minProfitTime) :
    computePositionPnlUsd asset a isLong amount assetPrice now1 =
      computePositionPnlUsd asset a isLong amount assetPrice now2 := by
  unfold computePositionPnlUsd
  by_cases h0 : amount = 0
  · simp [h0]
  · simp only [h0, if_false]
    exact if_congr (and_congr_right fun _ => and_congr_left' h) rfl rfl

/-- Counterexample to C8 as stated: `computeSubAccount` reads the global clock
through `computePositionPnlUsd`, so two calls with identical asset list, id,
account state, collateral price and asset price can return different results.
Here the position is inside its minimum-profit lockup at clock 1000 (realized
pnl forced to 0) but outside it at clock 2000 (realized pnl 10). -/
theorem computeSubAccount_clock_counterexample :
    computeSubAccount [stableA, assetBLock] demoSid ⟨10, 1, 100, 0, 1000⟩ 1 110 1000 ≠
      computeSubAccount [stableA, assetBLock] demoSid ⟨10, 1, 100, 0, 1000⟩ 1 110 2000 := by
  intro h
  have h2 := congrArg (fun d => d.computed.pnlUsd) h
  norm_num [computeSubAccount, computePositionPnlUsd, computeFundingFeeUsd, assetAt,
    stableA, assetB, assetBLock, demoSid] at h2

/-- C8 (amended): `computeSubAccount` is deterministic in its arguments
together with the clock reading, and depends on the clock only through the
minimum-profit-time lockup test: two calls with identical arguments whose
clock readings agree on that test return identical `SubAccountDetails`. -/
theorem computeSubAccount_deterministic (assets : List Asset) (sid : SubAccountId)
    (a : SubAccount) (cp ap : ℚ) (now1 now2 : ℕ)
    (h : now1 < a.lastIncreasedTime + (assetAt assets sid.assetId).minProfitTime ↔
         now2 < a.lastIncreasedTime + (assetAt assets sid.assetId).minProfitTime) :
    computeSubAccount assets sid a cp ap now1 = computeSubAccount assets sid a cp ap now2 := by
  simp only [computeSubAccount]
  rw [computePositionPnlUsd_clock_congr _ _ _ _ _ _ _ h]

/-- Witness for `computeSubAccount_deterministic`: clock readings 2000 and
3000 are both outside the lockup window ending at 1600, so the snapshots
coincide. -/
theorem computeSubAccount_deterministic_witness :
    computeSubAccount [stableA, assetBLock] demoSid ⟨10, 1, 100, 0, 1000⟩ 1 110 2000 =
      computeSubAccount [stableA, assetBLock] demoSid ⟨10, 1, 100, 0, 1000⟩ 1 110 3000 :=
  computeSubAccount_deterministic _ _ _ _ _ 2000 3000
    (by norm_num [assetAt, demoSid, assetBLock, assetB, stableA])

/-- C9: a successful `computeWithdrawProfit` returns an account whose
collateral and size equal the input's: the withdrawal and funding fee are
settled through the entry-price shift only (lines 509-514), never deducted
from collateral or position size. -/
theorem computeWithdrawProfit_frame (assets : List Asset) (sid : SubAccountId)
    (a : SubAccount) (pid : ℕ) (prices : PriceDict) (amount : ℚ) (now : ℕ)
    (res : WithdrawProfitResult)
    (hok : computeWithdrawProfit assets sid a pid prices amount now = .ok res) :
    res.afterTrade.subAccount.collateral = a.collateral ∧
    res.afterTrade.subAccount.size = a.size := by
  unfold computeWithdrawProfit at hok
  rcases htp : computeTradingPrice assets sid prices false with e | cpap
  · rw [htp] at hok; exact Except.noConfusion hok
  obtain ⟨cp, ap⟩ := cpap
  rw [htp] at hok
  rcases hpa : resolveProfitAsset assets sid.assetId sid.isLong pid prices ap with e | pp
  · simp only [hpa] at hok; exact Except.noConfusion hok
  obtain ⟨pidr, pap⟩ := pp
  simp only [hpa] at hok
  split_ifs at hok <;>
    first
    | exact Except.noConfusion hok
    | (rw [Except.ok.injEq] at hok
       subst hok
       simp [computeSubAccount, updateEntryFunding, cloneSubAccount])

theorem demoSid_collateralId : demoSid.collateralId = 0 := rfl

theorem demoSid_assetId : demoSid.assetId = 1 := rfl

theorem demoSid_isLong : demoSid.isLong = true := rfl

theorem string_BA : (("B" : String) = "A") = False := by simp

/-- Evaluation of the demo trading price: no spread, collateral price 1,
asset price 50. -/
theorem tradingPrice_demo_eval :
    computeTradingPrice [stableA, assetB] demoSid (demoPrices 50) false = .ok (1, 50) := by
  norm_num [computeTradingPrice, demoPrices, assetAt, stableA, assetB,
    demoSid_collateralId, demoSid_assetId, demoSid_isLong, computePriceWithSpread, string_BA]

/-- Evaluation of the demo profit-asset resolution: long on an asset not
forcing stable profit resolves to the asset itself. -/
theorem resolveProfit_demo_eval :
    resolveProfitAsset [stableA, assetB] 1 true 0 (demoPrices 50) 50 = .ok (1, 50) := by
  norm_num [resolveProfitAsset, assetAt, assetB, stableA]

/-- Result of the demo `computeWithdrawProfit` run: long 1 unit at entry 10,
asset price 50, withdrawing 1/2 of the profit asset (25 USD of the 40 USD
realized pnl), which shifts the entry price to 35. -/
def wpDemoRes : WithdrawProfitResult :=
  { afterTrade :=
    { subAccount := ⟨10, 1, 35, 0, 0⟩
      computed :=
      { positionValueUsd := 50, fundingFeeUsd := 0, pendingPnlUsd := 15,
        pendingPnlAfterFundingUsd := 15, pnlUsd := 15, marginBalanceUsd := 25,
        isIMSafe := true, isMMSafe := true, isMarginSafe := true, leverage := 7/2,
        effectiveLeverage := 2, pendingRoe := 3/2, liquidationPrice := 5000/199,
        withdrawableCollateral := 193/20, withdrawableProfit := 3/10 } }
    isTradeSafe := true, feeUsd := 0, profitAssetTransferred := 4/5,
    bitoroTokenTransferred := 0 }

/-- Evaluation of the demo `computeWithdrawProfit` run. -/
theorem wpDemo_eval :
    computeWithdrawProfit [stableA, assetB] demoSid ⟨10, 1, 10, 0, 0⟩ 0 (demoPrices 50) (1/2) 0 =
      .ok wpDemoRes := by
  simp only [computeWithdrawProfit, cloneSubAccount, tradingPrice_demo_eval,
    demoSid_assetId, demoSid_isLong, resolveProfit_demo_eval]
  norm_num [closeProtectionViolated, computeFundingFeeUsd, updateEntryFunding,
    computePositionPnlUsd, computeRealizeProfit, computeSubAccount,
    estimateLiquidationPrice, assetAt, stableA, assetB,
    demoSid_collateralId, demoSid_assetId, demoSid_isLong, wpDemoRes]

/-- Witness for `computeWithdrawProfit_frame`: the demo run keeps collateral
10 and size 1. -/
theorem computeWithdrawProfit_frame_witness :
    wpDemoRes.afterTrade.subAccount.collateral = (⟨10, 1, 10, 0, 0⟩ : SubAccount).collateral ∧
    wpDemoRes.afterTrade.subAccount.size = (⟨10, 1, 10, 0, 0⟩ : SubAccount).size :=
  computeWithdrawProfit_frame [stableA, assetB] demoSid ⟨10, 1, 10, 0, 0⟩ 0 (demoPrices 50)
    (1/2) 0 wpDemoRes wpDemo_eval

/-- C6: on success, `computeWithdrawProfit` returns an account whose entry
price is the old entry price shifted by `deltaUsd / size`, upward for a long
position and downward for a short one, where
`deltaUsd = amount * profitAssetPrice + fundingFeeUsd`. -/
theorem computeWithdrawProfit_entryPrice (assets : List Asset) (sid : SubAccountId)
    (a : SubAccount) (pid : ℕ) (prices : PriceDict) (amount : ℚ) (now : ℕ)
    (cp ap : ℚ) (pidr : ℕ) (pap : ℚ) (res : WithdrawProfitResult)
    (htp : computeTradingPrice assets sid prices false = .ok (cp, ap))
    (hpa : resolveProfitAsset assets sid.assetId sid.isLong pid prices ap = .ok (pidr, pap))
    (hs : 0 < a.size)
    (hok : computeWithdrawProfit assets sid a pid prices amount now = .ok res) :
    res.afterTrade.subAccount.entryPrice =
      (if sid.isLong then
        a.entryPrice +
          (amount * pap + computeFundingFeeUsd a (assetAt assets sid.assetId) sid.isLong ap) /
            a.size
      else
        a.entryPrice -
          (amount * pap + computeFundingFeeUsd a (assetAt assets sid.assetId) sid.isLong ap) /
            a.size) := by
  unfold computeWithdrawProfit at hok
  rw [htp] at hok
  simp only [hpa] at hok
  split_ifs at hok with h1 h2 h3 h4 h5 <;>
    first
    | exact Except.noConfusion hok
    | (rw [Except.ok.injEq] at hok
       subst hok
       simp_all [computeSubAccount, updateEntryFunding, cloneSubAccount])

/-- Witness for `computeWithdrawProfit_entryPrice`: the demo run (long, entry
10, withdrawal value 25 USD, size 1) returns entry price 35 = 10 + 25/1. -/
theorem computeWithdrawProfit_entryPrice_witness :
    wpDemoRes.afterTrade.subAccount.entryPrice = 35 := by
  have h := computeWithdrawProfit_entryPrice [stableA, assetB] demoSid ⟨10, 1, 10, 0, 0⟩ 0
    (demoPrices 50) (1/2) 0 1 50 1 50 wpDemoRes tradingPrice_demo_eval
    (by rw [demoSid_assetId, demoSid_isLong]; exact resolveProfit_demo_eval)
    (by norm_num) wpDemo_eval
  norm_num [demoSid_isLong, demoSid_assetId, computeFundingFeeUsd, assetAt, stableA, assetB] at h
  exact h

/-- Loss realization writes only the cell it is handed. -/
theorem computeRealizeLossRef_frame (σ : Store) (rc : ℕ) (cp loss : ℚ) (b : Bool) (r : ℕ)
    (h : r ≠ rc) :
    ((computeRealizeLossRef σ rc cp loss b).1).read r = σ.read r := by
  unfold computeRealizeLossRef
  split_ifs <;> simp [h]
  all_goals (split_ifs <;> simp [h])

/-- The close tail writes only the clone cell. -/
theorem closeTailRef_frame (assets : List Asset) (sid : SubAccountId) (σ : Store) (rc : ℕ)
    (paidFeeUsd profitAssetTransferred bitoroTokenTransferred totalFeeUsd brokerGasFee
      collateralPrice assetPrice : ℚ) (now : ℕ) (amount : ℚ) (r : ℕ) (h : r ≠ rc) :
    ((closeTailRef assets sid σ rc paidFeeUsd profitAssetTransferred bitoroTokenTransferred
      totalFeeUsd brokerGasFee collateralPrice assetPrice now amount).1).read r = σ.read r := by
  simp only [closeTailRef]
  split_ifs <;> simp [h]

/-- Frame property of the store-level open: the caller's cell is untouched. -/
theorem computeOpenPositionRef_frame (assets : List Asset) (sid : SubAccountId)
    (σ : Store) (r : ℕ) (prices : PriceDict) (amount gas : ℚ) (now : ℕ) (hr : r < σ.next) :
    ((computeOpenPositionRef assets sid σ r prices amount gas now).1).read r = σ.read r := by
  have hne : r ≠ σ.next := Nat.ne_of_lt hr
  unfold computeOpenPositionRef
  rcases h : computeTradingPrice assets sid prices true with e | ⟨cp, ap⟩ <;>
    simp [h, hr, hne] <;> split_ifs <;> simp [hr, hne]

/-- Frame property of the store-level close: the caller's cell is untouched,
whether the call returns or throws. -/
theorem computeClosePositionRef_frame (assets : List Asset) (sid : SubAccountId)
    (σ : Store) (r : ℕ) (pid : ℕ) (prices : PriceDict) (amount gas : ℚ) (now : ℕ)
    (hr : r < σ.next) :
    ((computeClosePositionRef assets sid σ r pid prices amount gas now).1).read r = σ.read r := by
  have hne : r ≠ σ.next := Nat.ne_of_lt hr
  unfold computeClosePositionRef
  rcases h : computeTradingPrice assets sid prices false with e | ⟨cp, ap⟩ <;>
    simp only [h, hr, hne, Store.read_alloc_of_lt, Store.alloc_snd, Store.alloc_fst_next]
  rcases h2 : resolveProfitAsset assets sid.assetId sid.isLong pid prices ap
      with e2 | ⟨pidr, pap⟩ <;>
    simp only [h2, hr, hne, Store.read_alloc_of_lt, Store.alloc_snd, Store.alloc_fst_next]
  split_ifs with h3 h4 h5 h6 h7 <;>
    try simp [closeTailRef_frame, computeRealizeLossRef_frame, hr, hne]
  all_goals
    split <;> simp [closeTailRef_frame, computeRealizeLossRef_frame, hr, hne]

/-- Frame property of the store-level withdraw-collateral. -/
theorem computeWithdrawCollateralRef_frame (assets : List Asset) (sid : SubAccountId)
    (σ : Store) (r : ℕ) (prices : PriceDict) (amount : ℚ) (now : ℕ) (hr : r < σ.next) :
    ((computeWithdrawCollateralRef assets sid σ r prices amount now).1).read r = σ.read r := by
  have hne : r ≠ σ.next := Nat.ne_of_lt hr
  unfold computeWithdrawCollateralRef
  rcases h : computeTradingPrice assets sid prices false with e | ⟨cp, ap⟩ <;>
    simp [h, hr, hne] <;> split_ifs <;> simp [hr, hne]

/-- Frame property of the store-level withdraw-profit. -/
theorem computeWithdrawProfitRef_frame (assets : List Asset) (sid : SubAccountId)
    (σ : Store) (r : ℕ) (pid : ℕ) (prices : PriceDict) (amount : ℚ) (now : ℕ)
    (hr : r < σ.next) :
    ((computeWithdrawProfitRef assets sid σ r pid prices amount now).1).read r = σ.read r := by
  have hne : r ≠ σ.next := Nat.ne_of_lt hr
  unfold computeWithdrawProfitRef
  rcases h : computeTradingPrice assets sid prices false with e | ⟨cp, ap⟩ <;>
    simp only [h, hr, hne, Store.read_alloc_of_lt, Store.alloc_snd, Store.alloc_fst_next]
  rcases h2 : resolveProfitAsset assets sid.assetId sid.isLong pid prices ap
      with e2 | ⟨pidr, pap⟩ <;>
    simp [h2, hr, hne] <;> split_ifs <;> simp [hr, hne]

/-- C5: with the earlier argument validations passing, `computeWithdrawProfit`
raises the insufficient-pnl error exactly when the realized pnl at the full
position size (at the spread-adjusted asset price) is strictly below
`deltaUsd = amount * profitAssetPrice + fundingFeeUsd`; and (store model) the
caller's cell is unchanged by the call, so on a raise no mutation is
observable. -/
theorem computeWithdrawProfit_insufficient_pnl (assets : List Asset) (sid : SubAccountId)
    (a : SubAccount) (pid : ℕ) (prices : PriceDict) (amount : ℚ) (now : ℕ)
    (cp ap : ℚ) (pidr : ℕ) (pap : ℚ)
    (htp : computeTradingPrice assets sid prices false = .ok (cp, ap))
    (hpa : resolveProfitAsset assets sid.assetId sid.isLong pid prices ap = .ok (pidr, pap))
    (hamt : 0 < amount)
    (hprot : closeProtectionViolated assets sid = false)
    (hsz : a.size ≠ 0) :
    (computeWithdrawProfit assets sid a pid prices amount now =
        .error (.jsError "insufficient pnl") ↔
      (computePositionPnlUsd (assetAt assets sid.assetId)
          (updateEntryFunding a (assetAt assets sid.assetId) sid.isLong) sid.isLong a.size ap
          now).pnlUsd <
        amount * pap + computeFundingFeeUsd a (assetAt assets sid.assetId) sid.isLong ap) ∧
    (∀ (σ : Store) (r : ℕ), σ.read r = a → r < σ.next →
      ((computeWithdrawProfitRef assets sid σ r pid prices amount now).1).read r = σ.read r) := by
  constructor
  · unfold computeWithdrawProfit
    rw [htp]
    simp only [hpa, cloneSubAccount]
    rw [if_neg (not_le.mpr hamt)]
    rw [if_neg (by simp [hprot])]
    rw [if_neg hsz]
    rw [show (updateEntryFunding a (assetAt assets sid.assetId) sid.isLong).size = a.size
      from rfl]
    split_ifs with hlt
    · simpa using hlt
    · simp [hlt]
  · intro σ r _ hr
    exact computeWithdrawProfitRef_frame assets sid σ r pid prices amount now hr

/-- Witness for `computeWithdrawProfit_insufficient_pnl`: at asset price 50
with entry price 100 (realized pnl -50) any withdrawal is insufficient, so the
demo call raises the insufficient-pnl error. -/
theorem computeWithdrawProfit_insufficient_pnl_witness :
    computeWithdrawProfit [stableA, assetB] demoSid ⟨10, 1, 100, 0, 0⟩ 0 (demoPrices 50) 1 0 =
      .error (.jsError "insufficient pnl") := by
  have h := (computeWithdrawProfit_insufficient_pnl [stableA, assetB] demoSid ⟨10, 1, 100, 0, 0⟩
    0 (demoPrices 50) 1 0 1 50 1 50 tradingPrice_demo_eval
    (by rw [demoSid_assetId, demoSid_isLong]; exact resolveProfit_demo_eval)
    (by norm_num)
    (by norm_num [closeProtectionViolated, assetAt, stableA, assetB,
      demoSid_collateralId, demoSid_assetId, demoSid_isLong])
    (by norm_num)).1
  rw [h]
  norm_num [computePositionPnlUsd, computeFundingFeeUsd, updateEntryFunding, assetAt,
    stableA, assetB, demoSid_assetId, demoSid_isLong]

/-- Demo store: the caller's sub-account object lives in cell 0. -/
def demoStore : Store :=
  ⟨fun i => if i = 0 then ⟨10, 1, 10, 0, 0⟩ else default, 1⟩

/-- C2: clone isolation.  In the store model, each of the four simulation
functions first clones the caller's sub-account into a fresh cell and writes
only that clone, so after the call (whether it returns a result or an error)
the caller's cell still holds exactly the object it held before. -/
theorem simulation_clone_isolation :
    ∀ (σ : Store) (r : ℕ), r < σ.next →
      ∀ (assets : List Asset) (sid : SubAccountId) (prices : PriceDict) (pid : ℕ)
        (amount gas : ℚ) (now : ℕ),
      ((computeOpenPositionRef assets sid σ r prices amount gas now).1).read r = σ.read r ∧
      ((computeClosePositionRef assets sid σ r pid prices amount gas now).1).read r =
        σ.read r ∧
      ((computeWithdrawCollateralRef assets sid σ r prices amount now).1).read r = σ.read r ∧
      ((computeWithdrawProfitRef assets sid σ r pid prices amount now).1).read r = σ.read r :=
  fun σ r hr assets sid prices pid amount gas now =>
    ⟨computeOpenPositionRef_frame assets sid σ r prices amount gas now hr,
     computeClosePositionRef_frame assets sid σ r pid prices amount gas now hr,
     computeWithdrawCollateralRef_frame assets sid σ r prices amount now hr,
     computeWithdrawProfitRef_frame assets sid σ r pid prices amount now hr⟩

/-- Witness for `simulation_clone_isolation` at the demo store and arguments. -/
theorem simulation_clone_isolation_witness :
    ((computeOpenPositionRef [stableA, assetB] demoSid demoStore 0 (demoPrices 50) 1 0
      7).1).read 0 = demoStore.read 0 ∧
    ((computeClosePositionRef [stableA, assetB] demoSid demoStore 0 0 (demoPrices 50) 1 0
      7).1).read 0 = demoStore.read 0 ∧
    ((computeWithdrawCollateralRef [stableA, assetB] demoSid demoStore 0 (demoPrices 50) 1
      7).1).read 0 = demoStore.read 0 ∧
    ((computeWithdrawProfitRef [stableA, assetB] demoSid demoStore 0 0 (demoPrices 50) 1
      7).1).read 0 = demoStore.read 0 :=
  simulation_clone_isolation demoStore 0 (by norm_num [demoStore]) [stableA, assetB] demoSid
    (demoPrices 50) 0 1 0 7

/-- C10: with argument validation passing, `computeWithdrawCollateral` always
succeeds regardless of the collateral level: it deducts the funding fee in
collateral units and then the full requested amount, with no clamping (the
returned collateral may be negative), and the only signal to the caller is
`isTradeSafe = isIMSafe` of the post-trade snapshot. -/
theorem computeWithdrawCollateral_no_clamp (assets : List Asset) (sid : SubAccountId)
    (a : SubAccount) (prices : PriceDict) (amount : ℚ) (now : ℕ) (cp ap : ℚ)
    (htp : computeTradingPrice assets sid prices false = .ok (cp, ap))
    (hamt : 0 < amount)
    (hen : (assetAt assets sid.assetId).isEnabled = true)
    (hcen : (assetAt assets sid.collateralId).isEnabled = true) :
    (let fee := computeFundingFeeUsd a (assetAt assets sid.assetId) sid.isLong ap
     let a1 := if 0 < a.size then updateEntryFunding a (assetAt assets sid.assetId) sid.isLong
               else a
     let a2 : SubAccount := { a1 with collateral := a1.collateral - fee / cp - amount }
     let d := computeSubAccount assets sid a2 cp ap now
     computeWithdrawCollateral assets sid a prices amount now =
       .ok { afterTrade := d, isTradeSafe := d.computed.isIMSafe, feeUsd := fee }) := by
  simp only [computeWithdrawCollateral, cloneSubAccount, htp]
  have h1 : ¬(amount ≤ 0) := not_le.mpr hamt
  have h2 : ¬((!(assetAt assets sid.assetId).isEnabled ||
      !(assetAt assets sid.collateralId).isEnabled) = true) := by simp [hen, hcen]
  simp only [if_neg h1, if_neg h2]

/-- Witness for `computeWithdrawCollateral_no_clamp`: withdrawing 5 from a
flat account holding collateral 1 succeeds and leaves collateral -4. -/
theorem computeWithdrawCollateral_no_clamp_witness :
    computeWithdrawCollateral [stableA, assetB] demoSid ⟨1, 0, 0, 0, 0⟩ (demoPrices 50) 5 7 =
      .ok { afterTrade := computeSubAccount [stableA, assetB] demoSid ⟨-4, 0, 0, 0, 0⟩ 1 50 7
            isTradeSafe := (computeSubAccount [stableA, assetB] demoSid ⟨-4, 0, 0, 0, 0⟩ 1 50
              7).computed.isIMSafe
            feeUsd := 0 } := by
  have h := computeWithdrawCollateral_no_clamp [stableA, assetB] demoSid ⟨1, 0, 0, 0, 0⟩
    (demoPrices 50) 5 7 1 50 tradingPrice_demo_eval (by norm_num)
    (by norm_num [assetAt, assetB, stableA, demoSid_assetId])
    (by norm_num [assetAt, stableA, demoSid_collateralId])
  norm_num [computeFundingFeeUsd, assetAt, stableA, assetB, demoSid_assetId,
    demoSid_isLong] at h
  convert h using 3 <;> norm_num

/-- Flat-position invariant of the spec: a zero-size account has zero entry
price, zero entry funding and zero last-increased time. -/
def flatInvariant (a : SubAccount) : Prop :=
  a.size = 0 → a.entryPrice = 0 ∧ a.entryFunding = 0 ∧ a.lastIncreasedTime = 0

/-- The close tail always yields an account satisfying the flat invariant:
when the remaining size is zero it resets the three fields, and the later
collateral write does not touch them. -/
theorem closeTail_flatInvariant (assets : List Asset) (sid : SubAccountId) (a0 : SubAccount)
    (p1 p2 p3 fee gas cp ap : ℚ) (now : ℕ) (amount : ℚ) :
    flatInvariant (closeTail assets sid a0 p1 p2 p3 fee gas cp ap now
      amount).afterTrade.subAccount := by
  intro hsz
  by_cases h0 : a0.size - amount = 0
  · simp [closeTail, computeSubAccount, h0]
  · simp [closeTail, computeSubAccount, h0] at hsz

/-- Closing the full size makes the close tail reset entry price, entry
funding and last-increased time. -/
theorem closeTail_reset_of_full (assets : List Asset) (sid : SubAccountId) (a0 : SubAccount)
    (p1 p2 p3 fee gas cp ap : ℚ) (now : ℕ) (amount : ℚ) (h : a0.size - amount = 0) :
    (closeTail assets sid a0 p1 p2 p3 fee gas cp ap now amount).afterTrade.subAccount.entryPrice
        = 0 ∧
    (closeTail assets sid a0 p1 p2 p3 fee gas cp ap now
      amount).afterTrade.subAccount.entryFunding = 0 ∧
    (closeTail assets sid a0 p1 p2 p3 fee gas cp ap now
      amount).afterTrade.subAccount.lastIncreasedTime = 0 := by
  simp [closeTail, computeSubAccount, h]

/-- A non-throwing loss realization changes only the collateral field. -/
theorem computeRealizeLoss_ok_fields (a : SubAccount) (cp l : ℚ) (b : Bool) (a' : SubAccount)
    (h : computeRealizeLoss a cp l b = .ok a') :
    a'.size = a.size ∧ a'.entryPrice = a.entryPrice ∧ a'.entryFunding = a.entryFunding ∧
    a'.lastIncreasedTime = a.lastIncreasedTime := by
  simp only [computeRealizeLoss] at h
  split_ifs at h <;>
    first
    | exact Except.noConfusion h
    | (rw [Except.ok.injEq] at h; subst h; simp)

/-- C4: the invariant `size = 0 → entryPrice = 0 ∧ entryFunding = 0 ∧
lastIncreasedTime = 0` is preserved by all four simulation functions on the
returned account (for open, assuming the input size is nonnegative, and for
withdraw-collateral, assuming the input satisfies the invariant); in
particular a full close (`amount = size`) always returns an account with
those three fields reset to zero. -/
theorem flat_invariant_preserved :
    (∀ (assets : List Asset) (sid : SubAccountId) (a : SubAccount) (prices : PriceDict)
      (amount gas : ℚ) (now : ℕ) (res : OpenPositionResult),
      0 ≤ a.size →
      computeOpenPosition assets sid a prices amount gas now = .ok res →
      flatInvariant res.afterTrade.subAccount) ∧
    (∀ (assets : List Asset) (sid : SubAccountId) (a : SubAccount) (pid : ℕ)
      (prices : PriceDict) (amount gas : ℚ) (now : ℕ) (res : ClosePositionResult),
      computeClosePosition assets sid a pid prices amount gas now = .ok res →
      flatInvariant res.afterTrade.subAccount) ∧
    (∀ (assets : List Asset) (sid : SubAccountId) (a : SubAccount) (prices : PriceDict)
      (amount : ℚ) (now : ℕ) (res : WithdrawCollateralResult),
      flatInvariant a →
      computeWithdrawCollateral assets sid a prices amount now = .ok res →
      flatInvariant res.afterTrade.subAccount) ∧
    (∀ (assets : List Asset) (sid : SubAccountId) (a : SubAccount) (pid : ℕ)
      (prices : PriceDict) (amount : ℚ) (now : ℕ) (res : WithdrawProfitResult),
      computeWithdrawProfit assets sid a pid prices amount now = .ok res →
      flatInvariant res.afterTrade.subAccount) ∧
    (∀ (assets : List Asset) (sid : SubAccountId) (a : SubAccount) (pid : ℕ)
      (prices : PriceDict) (gas : ℚ) (now : ℕ) (res : ClosePositionResult),
      computeClosePosition assets sid a pid prices a.size gas now = .ok res →
      res.afterTrade.subAccount.entryPrice = 0 ∧
      res.afterTrade.subAccount.entryFunding = 0 ∧
      res.afterTrade.subAccount.lastIncreasedTime = 0) := by
  refine ⟨?_, ?_, ?_, ?_, ?_⟩
  · -- open
    intro assets sid a prices amount gas now res hsz hok
    unfold computeOpenPosition at hok
    rcases htp : computeTradingPrice assets sid prices true with e | ⟨cp, ap⟩
    · rw [htp] at hok; exact Except.noConfusion hok
    simp only [htp] at hok
    split_ifs at hok with h1 h2 h3 h4 <;>
      first
      | exact Except.noConfusion hok
      | (rw [Except.ok.injEq] at hok
         subst hok
         intro h0
         rw [not_le] at h1
         simp [computeSubAccount, updateEntryFunding, cloneSubAccount] at h0
         linarith)
  · -- close
    intro assets sid a pid prices amount gas now res hok
    unfold computeClosePosition at hok
    rcases htp : computeTradingPrice assets sid prices false with e | ⟨cp, ap⟩
    · rw [htp] at hok; exact Except.noConfusion hok
    simp only [htp] at hok
    rcases hpa : resolveProfitAsset assets sid.assetId sid.isLong pid prices ap
        with e2 | ⟨pidr, pap⟩
    · rw [hpa] at hok; exact Except.noConfusion hok
    simp only [hpa] at hok
    split_ifs at hok with h1 h2 h3 h4 h5 <;>
      first
      | exact Except.noConfusion hok
      | (rw [Except.ok.injEq] at hok
         subst hok
         exact closeTail_flatInvariant _ _ _ _ _ _ _ _ _ _ _ _)
      | (split at hok <;>
          first
          | exact Except.noConfusion hok
          | (rw [Except.ok.injEq] at hok
             subst hok
             exact closeTail_flatInvariant _ _ _ _ _ _ _ _ _ _ _ _))
  · -- withdraw collateral
    intro assets sid a prices amount now res hinv hok
    unfold computeWithdrawCollateral at hok
    rcases htp : computeTradingPrice assets sid prices false with e | ⟨cp, ap⟩
    · rw [htp] at hok; exact Except.noConfusion hok
    simp only [htp] at hok
    split_ifs at hok with h1 h2 hc <;>
      first
      | exact Except.noConfusion hok
      | (rw [Except.ok.injEq] at hok
         subst hok
         intro h0
         simp only [computeSubAccount, cloneSubAccount, updateEntryFunding] at h0 ⊢
         first
         | exact absurd h0 (ne_of_gt (by simpa [cloneSubAccount] using hc))
         | exact hinv h0)
  · -- withdraw profit
    intro assets sid a pid prices amount now res hok
    unfold computeWithdrawProfit at hok
    rcases htp : computeTradingPrice assets sid prices false with e | ⟨cp, ap⟩
    · rw [htp] at hok; exact Except.noConfusion hok
    simp only [htp] at hok
    rcases hpa : resolveProfitAsset assets sid.assetId sid.isLong pid prices ap
        with e2 | ⟨pidr, pap⟩
    · rw [hpa] at hok; exact Except.noConfusion hok
    simp only [hpa] at hok
    split_ifs at hok with h1 h2 h3 h4 h5 <;>
      first
      | exact Except.noConfusion hok
      | (rw [Except.ok.injEq] at hok
         subst hok
         intro h0
         simp [computeSubAccount, updateEntryFunding, cloneSubAccount] at h0
         exact absurd h0 (by simpa [cloneSubAccount] using h3))
  · -- full close resets
    intro assets sid a pid prices gas now res hok
    unfold computeClosePosition at hok
    rcases htp : computeTradingPrice assets sid prices false with e | ⟨cp, ap⟩
    · rw [htp] at hok; exact Except.noConfusion hok
    simp only [htp] at hok
    rcases hpa : resolveProfitAsset assets sid.assetId sid.isLong pid prices ap
        with e2 | ⟨pidr, pap⟩
    · rw [hpa] at hok; exact Except.noConfusion hok
    simp only [hpa] at hok
    split_ifs at hok with h1 h2 h3 h4 h5 <;>
      first
      | exact Except.noConfusion hok
      | (rw [Except.ok.injEq] at hok
         subst hok
         exact closeTail_reset_of_full _ _ _ _ _ _ _ _ _ _ _ _
           (by simp [updateEntryFunding, cloneSubAccount]))
      | (split at hok <;>
          first
          | exact Except.noConfusion hok
          | (rename_i a' heq
             rw [Except.ok.injEq] at hok
             subst hok
             have hf := computeRealizeLoss_ok_fields _ _ _ _ _ heq
             exact closeTail_reset_of_full _ _ _ _ _ _ _ _ _ _ _ _
               (by rw [hf.1]; simp [updateEntryFunding, cloneSubAccount])))

/-- Result of the demo full close: closing the whole size-2 position at its
entry price realizes no pnl and resets the position fields. -/
def closeDemoRes : ClosePositionResult :=
  { afterTrade :=
    { subAccount := ⟨10, 0, 0, 0, 0⟩
      computed :=
      { positionValueUsd := 0, fundingFeeUsd := 0, pendingPnlUsd := 0,
        pendingPnlAfterFundingUsd := 0, pnlUsd := 0, marginBalanceUsd := 10,
        isIMSafe := true, isMMSafe := true, isMarginSafe := true, leverage := 0,
        effectiveLeverage := 0, pendingRoe := 0, liquidationPrice := 0,
        withdrawableCollateral := 10, withdrawableProfit := 0 } }
    isTradeSafe := true, feeUsd := 0, profitAssetTransferred := 0,
    bitoroTokenTransferred := 0 }

/-- Evaluation of the demo full close. -/
theorem closeDemo_eval :
    computeClosePosition [stableA, assetB] demoSid ⟨10, 2, 50, 0, 0⟩ 0 (demoPrices 50) 2 0 7 =
      .ok closeDemoRes := by
  simp only [computeClosePosition, cloneSubAccount, tradingPrice_demo_eval,
    demoSid_assetId, demoSid_isLong, resolveProfit_demo_eval]
  norm_num [closeProtectionViolated, computeFeeUsd, computeFundingFeeUsd,
    computePositionFeeUsd, updateEntryFunding, computePositionPnlUsd, closeTail,
    settleCloseFees, computeSubAccount, estimateLiquidationPrice, assetAt, stableA, assetB,
    demoSid_collateralId, demoSid_assetId, demoSid_isLong, closeDemoRes]

/-- Witness for `flat_invariant_preserved`: the demo full close resets entry
price, entry funding and last-increased time, and its result satisfies the
flat-position invariant. -/
theorem flat_invariant_preserved_witness :
    (closeDemoRes.afterTrade.subAccount.entryPrice = 0 ∧
     closeDemoRes.afterTrade.subAccount.entryFunding = 0 ∧
     closeDemoRes.afterTrade.subAccount.lastIncreasedTime = 0) ∧
    flatInvariant closeDemoRes.afterTrade.subAccount :=
  ⟨flat_invariant_preserved.2.2.2.2 [stableA, assetB] demoSid ⟨10, 2, 50, 0, 0⟩ 0
      (demoPrices 50) 0 7 closeDemoRes closeDemo_eval,
   flat_invariant_preserved.2.1 [stableA, assetB] demoSid ⟨10, 2, 50, 0, 0⟩ 0
      (demoPrices 50) 2 0 7 closeDemoRes closeDemo_eval⟩

/-- Counterexample to C1 as stated: `computeClosePosition` passes
`isThrowBankrupt = true` to `computeRealizeLoss` (line 379), so a loss larger
than the collateral is NOT clamped: the call throws the bankruptcy error.
Long 1 unit at entry 100, close at price 50 (realized pnl -50) with
collateral 1/10. -/
theorem computeClosePosition_bankrupt_counterexample :
    computeClosePosition [stableA, assetB] demoSid ⟨1/10, 1, 100, 0, 0⟩ 0 (demoPrices 50)
      1 0 0 = .error (.jsError "bankrupt") := by
  simp only [computeClosePosition, cloneSubAccount, tradingPrice_demo_eval,
    demoSid_assetId, demoSid_isLong, resolveProfit_demo_eval]
  norm_num [closeProtectionViolated, computeFeeUsd, computeFundingFeeUsd,
    computePositionFeeUsd, updateEntryFunding, computePositionPnlUsd, computeRealizeLoss,
    assetAt, stableA, assetB, demoSid_collateralId, demoSid_assetId, demoSid_isLong]

/-- C1 (amended): when the realized pnl of the closed amount is negative,
`computeClosePosition` realizes the loss with the bankruptcy check ENABLED
(`isThrowBankrupt = true` at line 379): it throws the bankruptcy error
exactly when the loss in collateral units exceeds the account's collateral,
and otherwise deducts the full, unclamped loss from collateral before fee
settlement. -/
theorem computeClosePosition_loss_bankruptcy (assets : List Asset) (sid : SubAccountId)
    (a : SubAccount) (pid : ℕ) (prices : PriceDict) (amount gas : ℚ) (now : ℕ)
    (cp ap : ℚ) (pidr : ℕ) (pap : ℚ)
    (htp : computeTradingPrice assets sid prices false = .ok (cp, ap))
    (hpa : resolveProfitAsset assets sid.assetId sid.isLong pid prices ap = .ok (pidr, pap))
    (hamt : 0 < amount) (hle : amount ≤ a.size) (hgas : 0 ≤ gas)
    (hprot : closeProtectionViolated assets sid = false)
    (hpnl : (computePositionPnlUsd (assetAt assets sid.assetId)
      (updateEntryFunding a (assetAt assets sid.assetId) sid.isLong) sid.isLong amount ap
      now).pnlUsd < 0) :
    (let pnlUsd := (computePositionPnlUsd (assetAt assets sid.assetId)
       (updateEntryFunding a (assetAt assets sid.assetId) sid.isLong) sid.isLong amount ap
       now).pnlUsd
     let lossCollateral := -pnlUsd / cp
     (computeClosePosition assets sid a pid prices amount gas now =
         .error (.jsError "bankrupt") ↔
       a.collateral < lossCollateral) ∧
     (lossCollateral ≤ a.collateral →
       computeClosePosition assets sid a pid prices amount gas now =
         .ok (closeTail assets sid
           { updateEntryFunding a (assetAt assets sid.assetId) sid.isLong with
             collateral := a.collateral - lossCollateral }
           0 0 0 (computeFeeUsd a (assetAt assets sid.assetId) sid.isLong amount ap) gas cp
           ap now amount))) := by
  have hA : ¬(amount ≤ 0 ∨ a.size < amount) := by
    push_neg
    exact ⟨hamt, hle⟩
  have hG : ¬(gas < 0) := not_lt.mpr hgas
  have hP : ¬(closeProtectionViolated assets sid = true) := by simp [hprot]
  have hPos : ¬(0 < (computePositionPnlUsd (assetAt assets sid.assetId)
      (updateEntryFunding a (assetAt assets sid.assetId) sid.isLong) sid.isLong amount ap
      now).pnlUsd) := not_lt.mpr (le_of_lt hpnl)
  have hL0 : ¬(-(computePositionPnlUsd (assetAt assets sid.assetId)
      (updateEntryFunding a (assetAt assets sid.assetId) sid.isLong) sid.isLong amount ap
      now).pnlUsd = 0) := ne_of_gt (neg_pos.mpr hpnl)
  simp only [computeClosePosition, cloneSubAccount, htp, hpa, if_neg hA, if_neg hG,
    if_neg hP, if_neg hPos, if_pos hpnl, computeRealizeLoss, if_neg hL0, if_true]
  rw [show (updateEntryFunding a (assetAt assets sid.assetId) sid.isLong).collateral =
    a.collateral from rfl]
  constructor
  · split_ifs with hb <;> simp [hb]
  · intro hge
    rw [if_neg (not_lt.mpr hge)]

/-- Witness for `computeClosePosition_loss_bankruptcy`: with collateral 100
against a 50-unit loss the check passes and the full loss is deducted,
leaving collateral 50. -/
theorem computeClosePosition_loss_bankruptcy_witness :
    (computeClosePosition [stableA, assetB] demoSid ⟨100, 1, 100, 0, 0⟩ 0 (demoPrices 50)
      1 0 0).map (fun r => r.afterTrade.subAccount.collateral) = .ok 50 := by
  have h := (computeClosePosition_loss_bankruptcy [stableA, assetB] demoSid
    ⟨100, 1, 100, 0, 0⟩ 0 (demoPrices 50) 1 0 0 1 50 1 50 tradingPrice_demo_eval
    (by rw [demoSid_assetId, demoSid_isLong]; exact resolveProfit_demo_eval)
    (by norm_num) (by norm_num) (by norm_num)
    (by norm_num [closeProtectionViolated, assetAt, stableA, assetB,
      demoSid_collateralId, demoSid_assetId, demoSid_isLong])
    (by norm_num [computePositionPnlUsd, updateEntryFunding, assetAt, stableA, assetB,
      demoSid_assetId, demoSid_isLong])).2
    (by norm_num [computePositionPnlUsd, updateEntryFunding, assetAt, stableA, assetB,
      demoSid_assetId, demoSid_isLong])
  rw [h]
  simp only [Except.map]
  norm_num [closeTail, computeSubAccount, settleCloseFees, updateEntryFunding,
    computeFeeUsd, computeFundingFeeUsd, computePositionFeeUsd, assetAt, stableA, assetB,
    demoSid_assetId, demoSid_isLong, computePositionPnlUsd]
